import Mathlib

/-
Shallow embedding of `src/examples/di/01_polyglot_di_pattern.rs`.

The Rust file is a single-threaded, fully synchronous dependency-injection
example.  Its observable behaviour is the returned value of each operation
together with the console output and the calls made to collaborators.  We
embed each operation as a pure Lean function returning its result paired
with a `List Event` trace (writer style).  Rust panics (`unwrap` on `None`,
`parse().unwrap()` failure) are modelled with `Except String`: a panic is
`Except.error msg` carrying a message in the style of the Rust runtime.

Rust `HashMap<String, String>` values (rows, payloads, responses) are
modelled as association lists `List (String × String)` with key lookup
`getField`; every map in the program is built once from distinct keys and
then only read, so the association-list model is faithful.

Borrowed collaborators (`db: &Database`, `http_client: &HTTPClient`) are
represented by the behaviour of the single method the borrower calls
(`query`, `post`); the concrete mock structs instantiate that behaviour.
This is what lets the spec's mock-substitution scenarios be stated.
-/

namespace DI

/-- One persistence row / HTTP payload / HTTP response: a string-keyed map,
modelled as an association list. -/
abbrev Row : Type := List (String × String)

/-- `row.get(k)` on the Rust `HashMap`. -/
def getField (row : Row) (k : String) : Option String :=
  (row.find? (fun p => p.1 == k)).map (fun p => p.2)

/-- Observable events of a run.  `print`, `info`, `error` are console
output; `queryCall` and `httpPost` record the arguments reaching the two
infrastructure methods; `notifyCall` and `postRequest` are ghost markers
recording, respectively, that `NotificationService::notify_user_created`
was invoked and that its `http_client.post(path, data)` call site fired. -/
inductive Event : Type where
  | print (msg : String)
  | info (msg : String)
  | error (msg : String)
  | queryCall (sql : String)
  | httpPost (url : String) (data : Row)
  | notifyCall (userId : Int) (userName : String) (userEmail : String)
  | postRequest (path : String) (data : Row)
  deriving Repr, DecidableEq

/-- `true` exactly on the ghost marker of a `notify_user_created` call. -/
def Event.isNotifyCall : Event → Bool
  | .notifyCall _ _ _ => true
  | _ => false

/-- Rust `str::parse::<i32>()`: optional `+`/`-` sign, one or more ASCII
digits, and the value must fit in `i32`; anything else is a parse error. -/
def parseI32 (s : String) : Option Int :=
  let cs := s.toList
  let signDigits : Int × List Char :=
    match cs with
    | '-' :: rest => (-1, rest)
    | '+' :: rest => (1, rest)
    | _ => (1, cs)
  let sign := signDigits.1
  let ds := signDigits.2
  if ds.isEmpty then none
  else if ds.all Char.isDigit then
    let n : Nat := ds.foldl (fun a c => a * 10 + (c.toNat - 48)) 0
    let v : Int := sign * (n : Int)
    if -(2 ^ 31) ≤ v ∧ v ≤ 2 ^ 31 - 1 then some v else none
  else none

/-- The domain entity `User` (struct User). -/
structure User : Type where
  id : Int
  name : String
  email : String
  deriving Repr, DecidableEq

/-- struct Logger (the configured level is stored but never read). -/
structure Logger : Type where
  level : String

/-- `Logger::info` prints a leveled line; modelled as an `info` event. -/
def Logger.info (_l : Logger) (message : String) : List Event :=
  [Event.info message]

/-- `Logger::error` prints a leveled line; modelled as an `error` event. -/
def Logger.error (_l : Logger) (message : String) : List Event :=
  [Event.error message]

/-- The fixed row built by the mock `Database::query`. -/
def mockRow : Row :=
  [("id", "1"), ("name", "Alice"), ("email", "alice@example.com")]

/-- struct Database (mock infrastructure). -/
structure Database : Type where
  connection_string : String

/-- `Database::query`: prints the statement and returns the fixed
single-row result, regardless of the statement. -/
def Database.query (_db : Database) (sql : String) : List Row × List Event :=
  ([mockRow], [Event.queryCall sql])

/-- struct HTTPClient (mock infrastructure). -/
structure HTTPClient : Type where
  base_url : String
  timeout : Nat

/-- `HTTPClient::post`: computes `url = base_url ++ path`, prints the url
and payload, and returns the fixed success response regardless of input. -/
def HTTPClient.post (c : HTTPClient) (path : String) (data : Row) :
    Row × List Event :=
  let url := c.base_url ++ path
  ([("status", "success"), ("message", "User created")],
   [Event.httpPost url data])

/-- struct UserRepository: holds the borrowed Database (represented by its
`query` behaviour) and the borrowed Logger. -/
structure UserRepository : Type where
  query : String → List Row × List Event
  logger : Logger

/-- The SQL text `find_by_id` sends for a given id. -/
def sqlFor (user_id : Int) : String :=
  "SELECT * FROM users WHERE id = " ++ toString user_id

/-- `UserRepository::find_by_id`: logs, queries, returns `none` on an empty
result, otherwise unwraps and parses the first row's fields.  A missing
field or an unparseable `id` is a Rust panic, modelled as `Except.error`. -/
def UserRepository.find_by_id (repo : UserRepository) (user_id : Int) :
    Except String (Option User) × List Event :=
  let e1 := repo.logger.info ("Finding user " ++ toString user_id)
  let qres := repo.query (sqlFor user_id)
  let rows := qres.1
  let e2 := qres.2
  match rows with
  | [] => (Except.ok none, e1 ++ e2)
  | row :: _ =>
    match getField row "id" with
    | none => (Except.error "called Option::unwrap() on a None value", e1 ++ e2)
    | some idStr =>
      match parseI32 idStr with
      | none => (Except.error "invalid digit found in string", e1 ++ e2)
      | some idVal =>
        match getField row "name" with
        | none =>
          (Except.error "called Option::unwrap() on a None value", e1 ++ e2)
        | some nameVal =>
          match getField row "email" with
          | none =>
            (Except.error "called Option::unwrap() on a None value", e1 ++ e2)
          | some emailVal =>
            (Except.ok (some { id := idVal, name := nameVal, email := emailVal }),
             e1 ++ e2)

/-- struct NotificationService: holds the borrowed HTTPClient (represented
by its `post` behaviour) and the borrowed Logger. -/
structure NotificationService : Type where
  post : String → Row → Row × List Event
  logger : Logger

/-- The payload `notify_user_created` builds for a user. -/
def notifyPayload (user : User) : Row :=
  [("user_id", toString user.id), ("event", "user.created")]

/-- `NotificationService::notify_user_created`: logs, posts the payload to
`/notifications`, and returns whether the response's `status` field equals
`"success"` (`false` on any other value or a missing field). -/
def NotificationService.notify_user_created (ns : NotificationService)
    (user : User) : Bool × List Event :=
  let e0 := [Event.notifyCall user.id user.name user.email]
  let e1 := ns.logger.info ("Sending notification for user " ++ user.name)
  let data := notifyPayload user
  let e2 := [Event.postRequest "/notifications" data]
  let pres := ns.post "/notifications" data
  let response := pres.1
  let e3 := pres.2
  (((getField response "status").map (fun s => s == "success")).getD false,
   e0 ++ e1 ++ e2 ++ e3)

/-- struct UserService: holds the borrowed repository, notification service
and logger. -/
structure UserService : Type where
  repository : UserRepository
  notifications : NotificationService
  logger : Logger

/-- `UserService::get_user`: logs, looks the user up; on a hit it logs the
name, fires the notification (result ignored) and returns the user; on a
miss it returns `none`.  A repository panic propagates. -/
def UserService.get_user (svc : UserService) (user_id : Int) :
    Except String (Option User) × List Event :=
  let e1 := svc.logger.info ("Getting user " ++ toString user_id)
  let fres := svc.repository.find_by_id user_id
  match fres with
  | (Except.error msg, ev) => (Except.error msg, e1 ++ ev)
  | (Except.ok none, ev) => (Except.ok none, e1 ++ ev)
  | (Except.ok (some user), ev) =>
    let e2 := svc.logger.info ("Found user: " ++ user.name)
    let nres := svc.notifications.notify_user_created user
    (Except.ok (some user), e1 ++ ev ++ e2 ++ nres.2)

/-- The object graph `main` builds, generalised over the four configuration
literals (connection string, base url, timeout, log level); `main` uses
`"postgresql://localhost/myapp"`, `"https://api.example.com"`, `30`,
`"INFO"`. -/
def builds (cs bu : String) (t : Nat) (lv : String) : UserService :=
  let database : Database := { connection_string := cs }
  let http_client : HTTPClient := { base_url := bu, timeout := t }
  let logger : Logger := { level := lv }
  let repository : UserRepository := { query := database.query, logger := logger }
  let notifications : NotificationService :=
    { post := http_client.post, logger := logger }
  { repository := repository, notifications := notifications, logger := logger }

/-- The exact object graph of `main`. -/
def user_service : UserService :=
  builds "postgresql://localhost/myapp" "https://api.example.com" 30 "INFO"

/-- The user the reference mocks always produce. -/
def alice : User := { id := 1, name := "Alice", email := "alice@example.com" }

end DI

namespace DI

/-- Claim C1: if the query result is non-empty and its first row is
malformed (missing or unparseable `id`, or missing `name` or `email`),
`find_by_id` fails (the Rust panic, modelled as `Except.error`) and
returns neither a user nor absence. -/
theorem C1_malformed_row_fails (q : String → List Row × List Event)
    (lg : Logger) (user_id : Int) (row : Row) (rest : List Row)
    (ev : List Event)
    (hq : q (sqlFor user_id) = (row :: rest, ev))
    (hmal : getField row "id" = none
      ∨ (∃ s, getField row "id" = some s ∧ parseI32 s = none)
      ∨ getField row "name" = none
      ∨ getField row "email" = none) :
    (∃ msg, (UserRepository.find_by_id ⟨q, lg⟩ user_id).1 = Except.error msg)
    ∧ (∀ u : User,
        (UserRepository.find_by_id ⟨q, lg⟩ user_id).1 ≠ Except.ok (some u))
    ∧ (UserRepository.find_by_id ⟨q, lg⟩ user_id).1 ≠ Except.ok none := by
  have key : ∃ msg,
      (UserRepository.find_by_id ⟨q, lg⟩ user_id).1 = Except.error msg := by
    rcases h1 : getField row "id" with _ | s
    · exact ⟨"called Option::unwrap() on a None value",
        by simp [UserRepository.find_by_id, hq, h1]⟩
    · rcases h2 : parseI32 s with _ | n
      · exact ⟨"invalid digit found in string",
          by simp [UserRepository.find_by_id, hq, h1, h2]⟩
      · rcases h3 : getField row "name" with _ | nm
        · exact ⟨"called Option::unwrap() on a None value",
            by simp [UserRepository.find_by_id, hq, h1, h2, h3]⟩
        · rcases h4 : getField row "email" with _ | em
          · exact ⟨"called Option::unwrap() on a None value",
              by simp [UserRepository.find_by_id, hq, h1, h2, h3, h4]⟩
          · rcases hmal with h | ⟨t, ht, hp⟩ | h | h
            · exact absurd h1 (by simp [h])
            · rw [h1] at ht; cases ht; exact absurd h2 (by simp [hp])
            · exact absurd h3 (by simp [h])
            · exact absurd h4 (by simp [h])
  obtain ⟨msg, hmsg⟩ := key
  refine ⟨⟨msg, hmsg⟩, ?_, ?_⟩
  · intro u hu; rw [hmsg] at hu; exact Except.noConfusion hu
  · intro hu; rw [hmsg] at hu; exact Except.noConfusion hu

theorem C1_witness :
    (∃ msg,
      (UserRepository.find_by_id
        ⟨fun _ => ([[("id", "abc")]], []), ⟨"INFO"⟩⟩ 7).1 = Except.error msg)
    ∧ (∀ u : User,
      (UserRepository.find_by_id
        ⟨fun _ => ([[("id", "abc")]], []), ⟨"INFO"⟩⟩ 7).1 ≠ Except.ok (some u))
    ∧ (UserRepository.find_by_id
        ⟨fun _ => ([[("id", "abc")]], []), ⟨"INFO"⟩⟩ 7).1 ≠ Except.ok none :=
  C1_malformed_row_fails (fun _ => ([[("id", "abc")]], [])) ⟨"INFO"⟩ 7
    [("id", "abc")] [] [] rfl (Or.inr (Or.inl ⟨"abc", rfl, rfl⟩))

end DI

namespace DI

/-- Shared helper: with any database behaviour whose first row for the
looked-up id is well-formed, `find_by_id` returns exactly that row's
parsed `id` and verbatim `name` and `email`. -/
theorem find_by_id_ok (q : String → List Row × List Event) (lg : Logger)
    (user_id : Int) (row : Row) (rest : List Row) (ev : List Event)
    (s nm em : String) (n : Int)
    (hq : q (sqlFor user_id) = (row :: rest, ev))
    (hid : getField row "id" = some s) (hparse : parseI32 s = some n)
    (hname : getField row "name" = some nm)
    (hemail : getField row "email" = some em) :
    (UserRepository.find_by_id ⟨q, lg⟩ user_id).1 =
      Except.ok (some { id := n, name := nm, email := em }) := by
  simp [UserRepository.find_by_id, hq, hid, hparse, hname, hemail]

/-- Shared helper: when the repository finds a user, `get_user` returns
that user, whatever the notification collaborator does. -/
theorem get_user_of_found (q : String → List Row × List Event)
    (p : String → Row → Row × List Event) (lg : Logger) (user_id : Int)
    (u : User)
    (hf : (UserRepository.find_by_id ⟨q, lg⟩ user_id).1 = Except.ok (some u)) :
    (UserService.get_user ⟨⟨q, lg⟩, ⟨p, lg⟩, lg⟩ user_id).1 =
      Except.ok (some u) := by
  unfold UserService.get_user
  rcases hfe : UserRepository.find_by_id ⟨q, lg⟩ user_id with ⟨res, ev⟩
  rw [hfe] at hf
  simp at hf
  subst hf
  simp [hfe]

/-- Claim C2: when the backing store returns zero rows, `get_user` returns
absence with no error, and `notify_user_created` is never invoked (its
ghost invocation marker is absent from the trace; the database's own
trace carries no such marker). -/
theorem C2_empty_rows_absence (q : String → List Row × List Event)
    (p : String → Row → Row × List Event) (lg : Logger) (user_id : Int)
    (ev : List Event)
    (hq : q (sqlFor user_id) = ([], ev))
    (hev : ev.all (fun e => !e.isNotifyCall) = true) :
    (UserService.get_user ⟨⟨q, lg⟩, ⟨p, lg⟩, lg⟩ user_id).1 = Except.ok none
    ∧ ((UserService.get_user ⟨⟨q, lg⟩, ⟨p, lg⟩, lg⟩ user_id).2.all
        (fun e => !e.isNotifyCall)) = true := by
  constructor
  · simp [UserService.get_user, UserRepository.find_by_id, hq]
  · simp [UserService.get_user, UserRepository.find_by_id, hq, Logger.info,
      Event.isNotifyCall]
    simpa using hev

theorem C2_witness :
    (UserService.get_user
      ⟨⟨fun _ => ([], []), ⟨"INFO"⟩⟩,
       ⟨fun _ _ => ([], []), ⟨"INFO"⟩⟩, ⟨"INFO"⟩⟩ 42).1 = Except.ok none
    ∧ ((UserService.get_user
      ⟨⟨fun _ => ([], []), ⟨"INFO"⟩⟩,
       ⟨fun _ _ => ([], []), ⟨"INFO"⟩⟩, ⟨"INFO"⟩⟩ 42).2.all
        (fun e => !e.isNotifyCall)) = true :=
  C2_empty_rows_absence (fun _ => ([], [])) (fun _ _ => ([], [])) ⟨"INFO"⟩ 42
    [] rfl rfl

/-- Claim C3: whenever `find_by_id` yields a user, `get_user` returns that
same user for every notification (HTTP post) behaviour — in particular a
soft notification failure does not change the returned value. -/
theorem C3_notification_independent (q : String → List Row × List Event)
    (p1 p2 : String → Row → Row × List Event) (lg : Logger) (user_id : Int)
    (u : User)
    (hf : (UserRepository.find_by_id ⟨q, lg⟩ user_id).1 = Except.ok (some u)) :
    (UserService.get_user ⟨⟨q, lg⟩, ⟨p1, lg⟩, lg⟩ user_id).1 =
        Except.ok (some u)
    ∧ (UserService.get_user ⟨⟨q, lg⟩, ⟨p2, lg⟩, lg⟩ user_id).1 =
        (UserService.get_user ⟨⟨q, lg⟩, ⟨p1, lg⟩, lg⟩ user_id).1 := by
  have h1 := get_user_of_found q p1 lg user_id u hf
  have h2 := get_user_of_found q p2 lg user_id u hf
  exact ⟨h1, by rw [h1, h2]⟩

theorem C3_witness :
    (UserService.get_user
      ⟨⟨fun s => ([mockRow], [Event.queryCall s]), ⟨"INFO"⟩⟩,
       ⟨fun _ _ => ([("status", "error")], []), ⟨"INFO"⟩⟩, ⟨"INFO"⟩⟩ 5).1 =
        Except.ok (some alice)
    ∧ (UserService.get_user
      ⟨⟨fun s => ([mockRow], [Event.queryCall s]), ⟨"INFO"⟩⟩,
       ⟨fun _ _ => ([], []), ⟨"INFO"⟩⟩, ⟨"INFO"⟩⟩ 5).1 =
      (UserService.get_user
      ⟨⟨fun s => ([mockRow], [Event.queryCall s]), ⟨"INFO"⟩⟩,
       ⟨fun _ _ => ([("status", "error")], []), ⟨"INFO"⟩⟩, ⟨"INFO"⟩⟩ 5).1 :=
  C3_notification_independent (fun s => ([mockRow], [Event.queryCall s]))
    (fun _ _ => ([("status", "error")], [])) (fun _ _ => ([], [])) ⟨"INFO"⟩ 5
    alice (by simp [UserRepository.find_by_id, mockRow, getField, parseI32, alice])

/-- Claim C4: when the first row for the looked-up id is well-formed,
`get_user` returns a user whose `id` is the row's `id` field parsed as an
integer and whose `name` and `email` are the row's fields verbatim,
whatever the notification behaviour. -/
theorem C4_wellformed_row_user (q : String → List Row × List Event)
    (p : String → Row → Row × List Event) (lg : Logger) (user_id : Int)
    (row : Row) (rest : List Row) (ev : List Event) (s nm em : String)
    (n : Int)
    (hq : q (sqlFor user_id) = (row :: rest, ev))
    (hid : getField row "id" = some s) (hparse : parseI32 s = some n)
    (hname : getField row "name" = some nm)
    (hemail : getField row "email" = some em) :
    (UserService.get_user ⟨⟨q, lg⟩, ⟨p, lg⟩, lg⟩ user_id).1 =
      Except.ok (some { id := n, name := nm, email := em }) :=
  get_user_of_found q p lg user_id _
    (find_by_id_ok q lg user_id row rest ev s nm em n hq hid hparse hname hemail)

theorem C4_witness :
    (UserService.get_user
      ⟨⟨fun _ => ([[("id", "7"), ("name", "Bob"), ("email", "bob@x.io")]], []),
        ⟨"INFO"⟩⟩,
       ⟨fun _ _ => ([], []), ⟨"INFO"⟩⟩, ⟨"INFO"⟩⟩ 7).1 =
      Except.ok (some { id := 7, name := "Bob", email := "bob@x.io" }) :=
  C4_wellformed_row_user
    (fun _ => ([[("id", "7"), ("name", "Bob"), ("email", "bob@x.io")]], []))
    (fun _ _ => ([], [])) ⟨"INFO"⟩ 7
    [("id", "7"), ("name", "Bob"), ("email", "bob@x.io")] [] [] "7" "Bob"
    "bob@x.io" 7 rfl rfl (by simp [parseI32]) rfl rfl

end DI

namespace DI

/-- Shared helper: over the reference mock database (any connection string)
and the reference HTTP client (any base url and timeout), `find_by_id`
and `get_user` both yield Alice for every id. -/
theorem builds_get_user_mock (cs bu : String) (t : Nat) (lv : String)
    (user_id : Int) :
    ((builds cs bu t lv).repository.find_by_id user_id).1 =
        Except.ok (some alice)
    ∧ ((builds cs bu t lv).get_user user_id).1 = Except.ok (some alice) := by
  have hf : (UserRepository.find_by_id
      ⟨Database.query ⟨cs⟩, ⟨lv⟩⟩ user_id).1 = Except.ok (some alice) :=
    find_by_id_ok _ _ _ mockRow [] _ "1" "Alice" "alice@example.com" 1
      rfl rfl rfl rfl rfl
  exact ⟨hf, get_user_of_found _ (HTTPClient.post ⟨bu, t⟩) _ _ _ hf⟩

/-- Claim C5: end to end over the exact object graph of `main`,
`get_user 1` returns Alice and the notification post is attempted against
path `/notifications` with a payload containing `user_id = "1"` and
`event = "user.created"`. -/
theorem C5_end_to_end :
    (user_service.get_user 1).1 = Except.ok (some alice)
    ∧ ∃ data : Row,
        Event.postRequest "/notifications" data ∈ (user_service.get_user 1).2
        ∧ ("user_id", "1") ∈ data ∧ ("event", "user.created") ∈ data :=
  ⟨rfl, notifyPayload alice, by decide, by decide, by decide⟩

/-- Claim C6: `notify_user_created` returns `true` exactly when the
response's `status` field equals `"success"`; any other value, or a
missing field, gives `false` — the function's result type is `Bool`, so a
soft failure is never an error. -/
theorem C6_notify_success_iff (p : String → Row → Row × List Event)
    (lg : Logger) (u : User) :
    (NotificationService.notify_user_created ⟨p, lg⟩ u).1 = true ↔
      getField (p "/notifications" (notifyPayload u)).1 "status" =
        some "success" := by
  unfold NotificationService.notify_user_created
  rcases hp : p "/notifications" (notifyPayload u) with ⟨response, ev⟩
  simp only [hp]
  rcases h : getField response "status" with _ | s
  · simp [h]
  · simp [h]

/-- Claim C7: the mock `Database.query` ignores the statement and returns
the fixed single row mapping `id` to `"1"`, `name` to `"Alice"` and
`email` to `"alice@example.com"`. -/
theorem C7_query_fixed (db : Database) (sql : String) :
    (db.query sql).1 = [mockRow]
    ∧ getField mockRow "id" = some "1"
    ∧ getField mockRow "name" = some "Alice"
    ∧ getField mockRow "email" = some "alice@example.com" :=
  ⟨rfl, rfl, rfl, rfl⟩

/-- Claim C8: `HTTPClient.post` targets `base_url ++ path` (recorded in
its emitted event) and returns the fixed success mapping regardless of
path and payload. -/
theorem C8_post_fixed (c : HTTPClient) (path : String) (data : Row) :
    c.post path data =
      ([("status", "success"), ("message", "User created")],
       [Event.httpPost (c.base_url ++ path) data]) := rfl

/-- Claim C9: with the reference mock database, `find_by_id` and hence
`get_user` return Alice for every id — the empty-row branch is
unreachable. -/
theorem C9_mock_db_always_alice (user_id : Int) :
    (user_service.repository.find_by_id user_id).1 = Except.ok (some alice)
    ∧ (user_service.get_user user_id).1 = Except.ok (some alice) :=
  builds_get_user_mock "postgresql://localhost/myapp"
    "https://api.example.com" 30 "INFO" user_id

/-- Claim C10: `get_user` over the reference mocks is deterministic and
independent of the four configuration literals: its returned value depends
only on the id.  (The embedding is pure, so two calls with the same id on
the same graph are definitionally equal; this theorem adds independence
from connection string, base url, timeout and log level.) -/
theorem C10_get_user_deterministic (user_id : Int)
    (cs1 bu1 : String) (t1 : Nat) (lv1 : String)
    (cs2 bu2 : String) (t2 : Nat) (lv2 : String) :
    ((builds cs1 bu1 t1 lv1).get_user user_id).1 =
      ((builds cs2 bu2 t2 lv2).get_user user_id).1 := by
  rw [(builds_get_user_mock cs1 bu1 t1 lv1 user_id).2,
      (builds_get_user_mock cs2 bu2 t2 lv2 user_id).2]

end DI
